import Mathlib

/-!
Verification of the order/checkout workflow of the e-commerce REST backend
(spec sections 3, 4, 6, 7).  The order controller itself is not among the
provided source files — only its unit test suite (`test/unit/controllers`,
`src/unnamed/part_001`) and the `UnauthorizedError` class
(`src/unnamed/part_000`) are — so the Pricing Engine and Order Workflow are
modelled from the specification, with error-status codes cross-checked
against `UnauthorizedError` (403) and the messages the test suite asserts.
Machine numbers are modelled as exact integers (`Int`), matching the spec's
"exactly" arithmetic requirements.
-/

/-- Modelled from the spec: a Product Catalog record, `findById(id) ->
{ id, name, price, image } | absent` (spec section 6). -/
structure Product where
  id : String
  name : String
  price : Int
  image : String
deriving DecidableEq

/-- Modelled from the spec: a client-submitted cart item, untrusted
(spec section 3).  Besides the product reference and quantity it may carry
client-supplied price/name/image fields, which must be ignored. -/
structure CartItem where
  productId : String
  quantity : Int
  clientPrice : Option Int
  clientName : Option String
  clientImage : Option String
deriving DecidableEq

/-- Modelled from the spec: a trusted OrderItem snapshot, with
unitPrice/name/image copied from the catalog at creation time
(spec section 3). -/
structure OrderItem where
  productId : String
  quantity : Int
  unitPrice : Int
  name : String
  image : String
deriving DecidableEq

/-- Modelled from the spec: `status` is one of pending, paid, failed
(spec section 3). -/
inductive OrderStatus where
  | pending
  | paid
  | failed
deriving DecidableEq

/-- Modelled from the spec: an Order record (spec section 3).  The store's
record identity is the `id` field; `paymentIntentId` is absent until a
payment confirmation is recorded by the update operation. -/
structure Order where
  id : String
  ownerUserId : String
  items : List OrderItem
  subtotal : Int
  tax : Int
  shippingFee : Int
  total : Int
  paymentClientSecret : String
  paymentIntentId : Option String
  status : OrderStatus
deriving DecidableEq

/-- Modelled from the spec: the result of the Payment Intent Service,
`createIntent(amount, currency) -> { clientSecret, amount }`
(spec section 6). -/
structure PaymentIntent where
  clientSecret : String
  amount : Int
deriving DecidableEq

/-- Modelled from the spec: the per-request identity context supplied by
the access-control layer, `{ userId, role }`; the role is abstracted to
whether it is elevated (spec sections 6 and the glossary). -/
structure Identity where
  userId : String
  elevated : Bool
deriving DecidableEq

/-- Modelled from the spec: the error taxonomy of section 7 —
ValidationError (400), NotFoundError (404), AuthorizationError (403) —
plus the generic unexpected failure (500) for collaborator outages. -/
inductive ApiError where
  | validationError (msg : String)
  | notFoundError (msg : String)
  | authorizationError (msg : String)
  | internalError
deriving DecidableEq

/-- Modelled from the spec: the HTTP status code the top-level handler maps
each error kind to (spec section 7; `UnauthorizedError` in the source
carries `StatusCodes.FORBIDDEN`, i.e. 403). -/
def errorStatus : ApiError → Nat
  | ApiError.validationError _ => 400
  | ApiError.notFoundError _ => 404
  | ApiError.authorizationError _ => 403
  | ApiError.internalError => 500

/-- Modelled from the spec: the successful response shapes of the HTTP
surface (spec section 6): 201 `{ order, clientSecret }` for create, 200
`{ order }` for single reads and updates, 200 `{ orders, count }` for
collection reads. -/
inductive OrdersResponse where
  | created (order : Order) (clientSecret : String)
  | okOrder (order : Order)
  | okOrders (orders : List Order) (count : Nat)
deriving DecidableEq

/-- Modelled from the spec: HTTP status of each successful response shape
(spec section 6). -/
def responseStatus : OrdersResponse → Nat
  | OrdersResponse.created _ _ => 201
  | OrdersResponse.okOrder _ => 200
  | OrdersResponse.okOrders _ _ => 200

/-- The orders list carried by a collection response (empty for the other
shapes). -/
def respOrders : OrdersResponse → List Order
  | OrdersResponse.okOrders l _ => l
  | _ => []

/-- The count carried by a collection response (zero for the other
shapes). -/
def respCount : OrdersResponse → Nat
  | OrdersResponse.okOrders _ n => n
  | _ => 0

/-- Modelled from the spec: Product Catalog Lookup, `findById` (spec
section 6), over a catalog modelled as a list of products. -/
def findProductById (catalog : List Product) (pid : String) : Option Product :=
  catalog.find? (fun p => p.id == pid)

/-- Modelled from the spec: the Order Store state — the persisted records
plus a counter from which the store assigns fresh record identities. -/
structure OrdersState where
  store : List Order
  nextId : Nat
deriving DecidableEq

/-- Modelled from the spec: Order Store `findById` (spec section 6). -/
def findOrderById (st : OrdersState) (oid : String) : Option Order :=
  st.store.find? (fun o => o.id == oid)

/-- Modelled from the spec: the fixed currency the Payment Intent Service
is invoked with (spec section 4.2 step 5). -/
def fixedCurrency : String := "usd"

/-- Modelled from the spec: the ownership check of sections 4.3/4.4 — the
requester must own the resource or carry an elevated role, otherwise an
AuthorizationError (403, matching `UnauthorizedError` in the source). -/
def checkPermissions (requester : Identity) (ownerId : String) : Except ApiError Unit :=
  if requester.elevated then Except.ok ()
  else if requester.userId == ownerId then Except.ok ()
  else Except.error (ApiError.authorizationError "not authorized to access this resource")

/-- Modelled from the spec: the Pricing Engine loop (spec section 4.1).
Each cart item's product is resolved through the catalog; the first missing
product aborts with a NotFoundError naming its id (message as asserted by
the unit tests); otherwise an OrderItem snapshot is built verbatim from the
catalog record, with the quantity from the cart, and unitPrice × quantity
accumulates into the subtotal. -/
def priceItems (catalog : List Product) : List CartItem → Except ApiError (List OrderItem × Int)
  | [] => Except.ok ([], 0)
  | c :: cs =>
    match findProductById catalog c.productId with
    | none => Except.error (ApiError.notFoundError ("No product with id: " ++ c.productId))
    | some p =>
      match priceItems catalog cs with
      | Except.error e => Except.error e
      | Except.ok (items, sub) =>
        Except.ok (⟨c.productId, c.quantity, p.price, p.name, p.image⟩ :: items,
          p.price * c.quantity + sub)

/-- Modelled from the spec: `priceCart(items) -> (orderItems, subtotal)`
(spec section 4.1): the input must be non-empty, else a ValidationError. -/
def priceCart (catalog : List Product) (cart : List CartItem) :
    Except ApiError (List OrderItem × Int) :=
  if cart.isEmpty then Except.error (ApiError.validationError "no cart items provided")
  else priceItems catalog cart

/-- Modelled from the spec: `createOrder` (spec section 4.2).  Steps:
validate the cart is present and non-empty; validate tax and shippingFee
are present; run the Pricing Engine; compute the total; obtain a payment
intent (failure aborts with no record created); persist exactly one Order
with ownerUserId = requesterId and status pending; respond 201 with the
order and the client secret. -/
def createOrder (catalog : List Product) (payment : Int → String → Option PaymentIntent)
    (st : OrdersState) (cart : Option (List CartItem)) (tax shippingFee : Option Int)
    (requester : Identity) : Except ApiError OrdersResponse × OrdersState :=
  match cart with
  | none => (Except.error (ApiError.validationError "no cart items provided"), st)
  | some cartItems =>
    if cartItems.isEmpty then
      (Except.error (ApiError.validationError "no cart items provided"), st)
    else
      match tax, shippingFee with
      | some t, some f =>
        (match priceCart catalog cartItems with
         | Except.error e => (Except.error e, st)
         | Except.ok (orderItems, sub) =>
           let total := sub + t + f
           match payment total fixedCurrency with
           | none => (Except.error ApiError.internalError, st)
           | some intent =>
             let ord : Order :=
               { id := toString st.nextId
                 ownerUserId := requester.userId
                 items := orderItems
                 subtotal := sub
                 tax := t
                 shippingFee := f
                 total := total
                 paymentClientSecret := intent.clientSecret
                 paymentIntentId := none
                 status := OrderStatus.pending }
             (Except.ok (OrdersResponse.created ord intent.clientSecret),
               { store := st.store ++ [ord], nextId := st.nextId + 1 }))
      | _, _ =>
        (Except.error (ApiError.validationError "please provide tax and shipping fee"), st)

/-- Modelled from the spec: `getAllOrders` (spec section 4.3): every order
plus a count, no filtering by owner. -/
def getAllOrders (st : OrdersState) : OrdersResponse :=
  OrdersResponse.okOrders st.store st.store.length

/-- Modelled from the spec: `getCurrentUserOrders` (spec section 4.3): only
the orders whose ownerUserId equals the requester's userId, plus a count. -/
def getCurrentUserOrders (st : OrdersState) (requester : Identity) : OrdersResponse :=
  let mine := st.store.filter (fun o => o.ownerUserId == requester.userId)
  OrdersResponse.okOrders mine mine.length

/-- Modelled from the spec: `getSingleOrder` (spec section 4.3): fetch by
id (NotFoundError naming the id if absent, message as asserted by the unit
tests), enforce ownership, respond 200 with the order. -/
def getSingleOrder (st : OrdersState) (orderId : String) (requester : Identity) :
    Except ApiError OrdersResponse :=
  match findOrderById st orderId with
  | none => Except.error (ApiError.notFoundError ("No order with id: " ++ orderId))
  | some ord =>
    match checkPermissions requester ord.ownerUserId with
    | Except.error e => Except.error e
    | Except.ok _ => Except.ok (OrdersResponse.okOrder ord)

/-- Modelled from the spec: `updateOrder` (spec section 4.4): fetch by id
(NotFoundError naming the id if absent), enforce ownership, set the
payment reference and status paid, persist the mutation in place (same
record identity), respond 200 with the updated order. -/
def updateOrder (st : OrdersState) (orderId : String) (paymentIntentId : Option String)
    (requester : Identity) : Except ApiError OrdersResponse × OrdersState :=
  match findOrderById st orderId with
  | none => (Except.error (ApiError.notFoundError ("No order with id: " ++ orderId)), st)
  | some ord =>
    match checkPermissions requester ord.ownerUserId with
    | Except.error e => (Except.error e, st)
    | Except.ok _ =>
      let ord2 : Order := { ord with paymentIntentId := paymentIntentId, status := OrderStatus.paid }
      (Except.ok (OrdersResponse.okOrder ord2),
        { st with store := st.store.map (fun o => if o.id == orderId then ord2 else o) })

/-- The catalog price of a product id, defaulting to zero when the id does
not resolve (only used under the hypothesis that every id resolves). -/
def priceOf (catalog : List Product) (pid : String) : Int :=
  match findProductById catalog pid with
  | some p => p.price
  | none => 0

/-- The server-side subtotal of a cart: the sum of catalog unit price times
cart quantity over the items. -/
def cartSubtotal (catalog : List Product) (cart : List CartItem) : Int :=
  (cart.map (fun c => priceOf catalog c.productId * c.quantity)).sum

/-- The relation between a cart item and the OrderItem snapshot built for
it: quantity from the cart, unitPrice/name/image verbatim from the catalog
record its product id resolves to. -/
def snapRel (catalog : List Product) (c : CartItem) (oi : OrderItem) : Prop :=
  oi.productId = c.productId ∧ oi.quantity = c.quantity ∧
    ∃ p, findProductById catalog c.productId = some p ∧
      oi.unitPrice = p.price ∧ oi.name = p.name ∧ oi.image = p.image

/-- Concrete fixture: the catalog product of the spec's section 8
scenario. -/
def exProduct : Product := { id := "P1", name := "mock", price := 500, image := "mock.jpg" }

/-- Concrete fixture: a one-product catalog. -/
def exCatalog : List Product := [exProduct]

/-- Concrete fixture: the cart of the spec's section 8 scenario, carrying a
client-supplied price that must be ignored. -/
def exCart : List CartItem :=
  [{ productId := "P1", quantity := 1, clientPrice := some 1, clientName := none,
     clientImage := none }]

/-- Concrete fixture: a cart item whose product id is absent from
`exCatalog`. -/
def exBadItem : CartItem :=
  { productId := "P-missing", quantity := 2, clientPrice := none, clientName := none,
    clientImage := none }

/-- Concrete fixture: a non-elevated requester. -/
def exRequester : Identity := { userId := "U1", elevated := false }

/-- Concrete fixture: a payment service that always succeeds. -/
def exPayment : Int → String → Option PaymentIntent :=
  fun amt _ => some { clientSecret := "secret", amount := amt }

/-- Concrete fixture: a payment service that always fails. -/
def exPaymentDown : Int → String → Option PaymentIntent := fun _ _ => none

/-- Concrete fixture: the empty order store. -/
def emptyState : OrdersState := { store := [], nextId := 0 }

/-- Concrete fixture: an order owned by `exRequester`, as stored. -/
def exOrder : Order :=
  { id := "O1", ownerUserId := "U1",
    items := [{ productId := "P1", quantity := 1, unitPrice := 500, name := "mock",
                image := "mock.jpg" }],
    subtotal := 500, tax := 5, shippingFee := 10, total := 515,
    paymentClientSecret := "secret", paymentIntentId := none,
    status := OrderStatus.pending }

/-- Concrete fixture: an order owned by another user. -/
def exOrderOther : Order := { exOrder with id := "O2", ownerUserId := "U2" }

/-- Concrete fixture: a store holding `exOrder` and `exOrderOther`. -/
def exState : OrdersState := { store := [exOrder, exOrderOther], nextId := 3 }

/-- Unfolding the cart subtotal over the first item. -/
theorem cartSubtotal_cons (catalog : List Product) (c : CartItem) (cs : List CartItem) :
    cartSubtotal catalog (c :: cs) =
      priceOf catalog c.productId * c.quantity + cartSubtotal catalog cs := by
  simp [cartSubtotal]

/-- When every product id of the cart resolves, the Pricing Engine loop
succeeds, its snapshots are related item-by-item to the cart through
`snapRel`, and its subtotal is the server-side cart subtotal, which equals
the sum of unitPrice × quantity over the snapshots. -/
theorem priceItems_of_resolves (catalog : List Product) (cart : List CartItem)
    (h : ∀ c ∈ cart, (findProductById catalog c.productId).isSome) :
    ∃ items, priceItems catalog cart = Except.ok (items, cartSubtotal catalog cart) ∧
      List.Forall₂ (snapRel catalog) cart items ∧
      cartSubtotal catalog cart = (items.map (fun oi => oi.unitPrice * oi.quantity)).sum := by
  induction cart with
  | nil => exact ⟨[], by simp [priceItems, cartSubtotal], List.Forall₂.nil, by simp [cartSubtotal]⟩
  | cons c cs ih =>
    obtain ⟨p, hp⟩ := Option.isSome_iff_exists.mp (h c (by simp))
    obtain ⟨items, hok, hrel, hsum⟩ := ih (fun x hx => h x (by simp [hx]))
    refine ⟨⟨c.productId, c.quantity, p.price, p.name, p.image⟩ :: items, ?_, ?_, ?_⟩
    · rw [cartSubtotal_cons]
      simp [priceItems, hp, hok, priceOf]
    · exact List.Forall₂.cons ⟨rfl, rfl, p, hp, rfl, rfl, rfl⟩ hrel
    · rw [cartSubtotal_cons, hsum]
      simp [priceOf, hp]

/-- The Pricing Engine loop never fails with a ValidationError: its only
failure mode is the NotFoundError for a missing product. -/
theorem priceItems_no_validation (catalog : List Product) (cart : List CartItem) (m : String) :
    priceItems catalog cart ≠ Except.error (ApiError.validationError m) := by
  induction cart with
  | nil => simp [priceItems]
  | cons c cs ih =>
    cases hfp : findProductById catalog c.productId with
    | none => simp [priceItems, hfp]
    | some p =>
      cases hpi : priceItems catalog cs with
      | error e =>
        rw [hpi] at ih
        simpa [priceItems, hfp, hpi] using ih
      | ok v => simp [priceItems, hfp, hpi]

/-- The Pricing Engine loop stops at the first missing product: whenever
every item before it resolves, the result is the NotFoundError naming the
first missing product id, whatever comes after it in the cart. -/
theorem priceItems_first_missing (catalog : List Product) (pre post : List CartItem)
    (bad : CartItem)
    (hpre : ∀ c ∈ pre, (findProductById catalog c.productId).isSome)
    (hbad : findProductById catalog bad.productId = none) :
    priceItems catalog (pre ++ bad :: post) =
      Except.error (ApiError.notFoundError ("No product with id: " ++ bad.productId)) := by
  induction pre with
  | nil => simp [priceItems, hbad]
  | cons c cs ih =>
    obtain ⟨p, hp⟩ := Option.isSome_iff_exists.mp (hpre c (by simp))
    have hrec := ih (fun x hx => hpre x (by simp [hx]))
    simp [priceItems, hp, hrec]

/-- When the validations pass, every product resolves and the payment
intent call succeeds at the computed total, `createOrder` persists exactly
one new record — built from the pricing snapshots, owned by the requester,
pending — and responds with it and the client secret. -/
theorem createOrder_payment_some (catalog : List Product)
    (payment : Int → String → Option PaymentIntent) (st : OrdersState) (req : Identity)
    (cart : List CartItem) (t f : Int) (intent : PaymentIntent)
    (hne : cart ≠ [])
    (hres : ∀ c ∈ cart, (findProductById catalog c.productId).isSome)
    (hpay : payment (cartSubtotal catalog cart + t + f) fixedCurrency = some intent) :
    ∃ items ord, List.Forall₂ (snapRel catalog) cart items ∧
      cartSubtotal catalog cart = (items.map (fun oi => oi.unitPrice * oi.quantity)).sum ∧
      ord = { id := toString st.nextId, ownerUserId := req.userId, items := items,
              subtotal := cartSubtotal catalog cart, tax := t, shippingFee := f,
              total := cartSubtotal catalog cart + t + f,
              paymentClientSecret := intent.clientSecret, paymentIntentId := none,
              status := OrderStatus.pending } ∧
      createOrder catalog payment st (some cart) (some t) (some f) req =
        (Except.ok (OrdersResponse.created ord intent.clientSecret),
          { store := st.store ++ [ord], nextId := st.nextId + 1 }) := by
  obtain ⟨items, hok, hrel, hsum⟩ := priceItems_of_resolves catalog cart hres
  obtain ⟨c, cs, rfl⟩ := List.exists_cons_of_ne_nil hne
  refine ⟨items, _, hrel, hsum, rfl, ?_⟩
  simp [createOrder, priceCart, hok, hpay]

/-- When the validations pass and every product resolves but the payment
intent call fails at the computed total, `createOrder` aborts with the
generic internal error and the store is unchanged: no record is created. -/
theorem createOrder_payment_none (catalog : List Product)
    (payment : Int → String → Option PaymentIntent) (st : OrdersState) (req : Identity)
    (cart : List CartItem) (t f : Int)
    (hne : cart ≠ [])
    (hres : ∀ c ∈ cart, (findProductById catalog c.productId).isSome)
    (hpay : payment (cartSubtotal catalog cart + t + f) fixedCurrency = none) :
    createOrder catalog payment st (some cart) (some t) (some f) req =
      (Except.error ApiError.internalError, st) := by
  obtain ⟨items, hok, hrel, hsum⟩ := priceItems_of_resolves catalog cart hres
  obtain ⟨c, cs, rfl⟩ := List.exists_cons_of_ne_nil hne
  simp [createOrder, priceCart, hok, hpay]

/-- C1: for every non-empty cart whose every product id resolves in the
catalog, `createOrder` builds one OrderItem per cart item whose unitPrice,
name and image are taken verbatim from the catalog record (client-supplied
price/name/image fields play no role) and whose quantity comes from the
cart, with subtotal = Σ(unitPrice × quantity) over the items and
total = subtotal + tax + shippingFee, exactly. -/
theorem createOrder_prices_server_side (catalog : List Product)
    (payment : Int → String → Option PaymentIntent) (st : OrdersState) (req : Identity)
    (cart : List CartItem) (t f : Int) (intent : PaymentIntent)
    (hne : cart ≠ [])
    (hres : ∀ c ∈ cart, (findProductById catalog c.productId).isSome)
    (hpay : payment (cartSubtotal catalog cart + t + f) fixedCurrency = some intent) :
    ∃ ord stfin,
      createOrder catalog payment st (some cart) (some t) (some f) req =
        (Except.ok (OrdersResponse.created ord intent.clientSecret), stfin) ∧
      List.Forall₂ (snapRel catalog) cart ord.items ∧
      ord.subtotal = (ord.items.map (fun oi => oi.unitPrice * oi.quantity)).sum ∧
      ord.total = ord.subtotal + t + f := by
  obtain ⟨items, ord, hrel, hsum, hord, heq⟩ :=
    createOrder_payment_some catalog payment st req cart t f intent hne hres hpay
  subst hord
  exact ⟨_, _, heq, hrel, hsum, rfl⟩

/-- Witness for C1 at the spec's section 8 scenario: cart P1 × 1, catalog
price 500, tax 5, shipping fee 10. -/
theorem createOrder_prices_server_side_witness :
    ∃ ord stfin,
      createOrder exCatalog exPayment emptyState (some exCart) (some 5) (some 10) exRequester =
        (Except.ok (OrdersResponse.created ord "secret"), stfin) ∧
      List.Forall₂ (snapRel exCatalog) exCart ord.items ∧
      ord.subtotal = (ord.items.map (fun oi => oi.unitPrice * oi.quantity)).sum ∧
      ord.total = ord.subtotal + 5 + 10 :=
  createOrder_prices_server_side exCatalog exPayment emptyState exRequester exCart 5 10
    ⟨"secret", 515⟩ (by decide) (by decide) (by decide)

/-- C2: with a valid non-empty cart whose products all resolve, the outcome
of `createOrder` is decided by the Payment Intent Service at the computed
total: if it fails, no order record is created and the store is unchanged;
if it succeeds, exactly one Order is appended to the store, owned by the
requester with status pending, and the response is 201 with the order and
the client secret. -/
theorem createOrder_payment_gate (catalog : List Product)
    (payment : Int → String → Option PaymentIntent) (st : OrdersState) (req : Identity)
    (cart : List CartItem) (t f : Int)
    (hne : cart ≠ [])
    (hres : ∀ c ∈ cart, (findProductById catalog c.productId).isSome) :
    (payment (cartSubtotal catalog cart + t + f) fixedCurrency = none →
      createOrder catalog payment st (some cart) (some t) (some f) req =
        (Except.error ApiError.internalError, st)) ∧
    (∀ intent, payment (cartSubtotal catalog cart + t + f) fixedCurrency = some intent →
      ∃ ord, createOrder catalog payment st (some cart) (some t) (some f) req =
          (Except.ok (OrdersResponse.created ord intent.clientSecret),
            { store := st.store ++ [ord], nextId := st.nextId + 1 }) ∧
        ord.ownerUserId = req.userId ∧ ord.status = OrderStatus.pending ∧
        responseStatus (OrdersResponse.created ord intent.clientSecret) = 201) := by
  constructor
  · intro hpay
    exact createOrder_payment_none catalog payment st req cart t f hne hres hpay
  · intro intent hpay
    obtain ⟨items, ord, hrel, hsum, hord, heq⟩ :=
      createOrder_payment_some catalog payment st req cart t f intent hne hres hpay
    subst hord
    exact ⟨_, heq, rfl, rfl, rfl⟩

/-- Witness for C2: with the payment service down no record is created;
with it up, one pending record owned by the requester is appended. -/
theorem createOrder_payment_gate_witness :
    createOrder exCatalog exPaymentDown emptyState (some exCart) (some 5) (some 10) exRequester =
      (Except.error ApiError.internalError, emptyState) ∧
    ∃ ord, createOrder exCatalog exPayment emptyState (some exCart) (some 5) (some 10)
        exRequester =
        (Except.ok (OrdersResponse.created ord "secret"),
          { store := emptyState.store ++ [ord], nextId := emptyState.nextId + 1 }) ∧
      ord.ownerUserId = "U1" ∧ ord.status = OrderStatus.pending ∧
      responseStatus (OrdersResponse.created ord "secret") = 201 := by
  constructor
  · exact (createOrder_payment_gate exCatalog exPaymentDown emptyState exRequester exCart 5 10
      (by decide) (by decide)).1 (by decide)
  · exact (createOrder_payment_gate exCatalog exPayment emptyState exRequester exCart 5 10
      (by decide) (by decide)).2 ⟨"secret", 515⟩ (by decide)

/-- C3: `createOrder` fails with a ValidationError and leaves the store
unchanged exactly when its input is invalid — message "no cart items
provided" when the cart is missing or empty, message "please provide tax
and shipping fee" when tax or shippingFee is absent — and every call with
a non-empty cart and both fields present, whatever their values, passes
these validations: no ValidationError can result. -/
theorem createOrder_validation (catalog : List Product)
    (payment : Int → String → Option PaymentIntent) (st : OrdersState) (req : Identity)
    (cart : Option (List CartItem)) (tax shippingFee : Option Int) :
    ((cart = none ∨ cart = some []) →
      createOrder catalog payment st cart tax shippingFee req =
        (Except.error (ApiError.validationError "no cart items provided"), st)) ∧
    (∀ l, cart = some l → l ≠ [] → (tax = none ∨ shippingFee = none) →
      createOrder catalog payment st cart tax shippingFee req =
        (Except.error (ApiError.validationError "please provide tax and shipping fee"), st)) ∧
    (∀ l t f, cart = some l → l ≠ [] → tax = some t → shippingFee = some f →
      ∀ m, (createOrder catalog payment st cart tax shippingFee req).1 ≠
        Except.error (ApiError.validationError m)) := by
  refine ⟨?_, ?_, ?_⟩
  · rintro (rfl | rfl)
    · rfl
    · rfl
  · rintro l rfl hl hmiss
    obtain ⟨c, cs, rfl⟩ := List.exists_cons_of_ne_nil hl
    rcases hmiss with rfl | rfl
    · cases shippingFee <;> rfl
    · cases tax <;> rfl
  · rintro l t f rfl hl rfl rfl m
    obtain ⟨c, cs, rfl⟩ := List.exists_cons_of_ne_nil hl
    cases hpi : priceItems catalog (c :: cs) with
    | error e =>
      have hnv := priceItems_no_validation catalog (c :: cs) m
      rw [hpi] at hnv
      simp only [createOrder, priceCart, List.isEmpty_cons, Bool.false_eq_true,
        if_false, hpi]
      simpa using hnv
    | ok v =>
      obtain ⟨items, sub⟩ := v
      cases hpay : payment (sub + t + f) fixedCurrency with
      | none => simp [createOrder, priceCart, hpi, hpay]
      | some intent => simp [createOrder, priceCart, hpi, hpay]

/-- Witness for C3: missing cart and missing tax each produce the stated
ValidationError with the store unchanged, while a valid call produces no
ValidationError. -/
theorem createOrder_validation_witness :
    createOrder exCatalog exPayment emptyState none (some 5) (some 10) exRequester =
      (Except.error (ApiError.validationError "no cart items provided"), emptyState) ∧
    createOrder exCatalog exPayment emptyState (some exCart) none (some 10) exRequester =
      (Except.error (ApiError.validationError "please provide tax and shipping fee"),
        emptyState) ∧
    (createOrder exCatalog exPayment emptyState (some exCart) (some 5) (some 10)
        exRequester).1 ≠
      Except.error (ApiError.validationError "no cart items provided") :=
  ⟨(createOrder_validation exCatalog exPayment emptyState exRequester none (some 5)
      (some 10)).1 (Or.inl rfl),
   (createOrder_validation exCatalog exPayment emptyState exRequester (some exCart) none
      (some 10)).2.1 exCart rfl (by decide) (Or.inl rfl),
   (createOrder_validation exCatalog exPayment emptyState exRequester (some exCart) (some 5)
      (some 10)).2.2 exCart 5 10 rfl (by decide) rfl rfl "no cart items provided"⟩

/-- C4: when the cart contains an item whose product id is absent from the
catalog and every earlier item resolves, `createOrder` fails with the
NotFoundError naming that missing product id and the store is unchanged;
the right-hand side does not depend on the items after the missing one, so
processing stops at the first missing product. -/
theorem createOrder_first_missing (catalog : List Product)
    (payment : Int → String → Option PaymentIntent) (st : OrdersState) (req : Identity)
    (pre post : List CartItem) (bad : CartItem) (t f : Int)
    (hpre : ∀ c ∈ pre, (findProductById catalog c.productId).isSome)
    (hbad : findProductById catalog bad.productId = none) :
    createOrder catalog payment st (some (pre ++ bad :: post)) (some t) (some f) req =
      (Except.error (ApiError.notFoundError ("No product with id: " ++ bad.productId)), st) := by
  have hpi := priceItems_first_missing catalog pre post bad hpre hbad
  cases pre with
  | nil =>
    simp only [List.nil_append] at hpi
    simp [createOrder, priceCart, hpi]
  | cons c cs =>
    simp only [List.cons_append] at hpi ⊢
    simp [createOrder, priceCart, hpi]

/-- Witness for C4: a cart holding the resolving item P1 followed by the
missing product id "P-missing" produces the NotFoundError naming
"P-missing" and leaves the store unchanged. -/
theorem createOrder_first_missing_witness :
    createOrder exCatalog exPayment exState (some (exCart ++ [exBadItem])) (some 5) (some 10)
        exRequester =
      (Except.error (ApiError.notFoundError ("No product with id: " ++ "P-missing")), exState) :=
  createOrder_first_missing exCatalog exPayment exState exRequester exCart [] exBadItem 5 10
    (by decide) (by decide)

/-- The ownership check either succeeds or fails with the
AuthorizationError — it has no other outcome. -/
theorem checkPermissions_cases (req : Identity) (ownerId : String) :
    checkPermissions req ownerId = Except.ok () ∨
    checkPermissions req ownerId =
      Except.error (ApiError.authorizationError "not authorized to access this resource") := by
  cases h1 : req.elevated <;> cases h2 : req.userId == ownerId <;>
    simp [checkPermissions, h1, h2]

/-- C5: getSingleOrder and updateOrder fail with the NotFoundError naming
the order id when no order with that id exists; when the order exists but
the requester is neither the owner nor elevated, they fail with an
AuthorizationError carrying HTTP status 403; when the requester is the
owner, they succeed. -/
theorem order_access_control (st : OrdersState) (oid : String) (req : Identity)
    (pid : Option String) :
    (findOrderById st oid = none →
      getSingleOrder st oid req =
        Except.error (ApiError.notFoundError ("No order with id: " ++ oid)) ∧
      updateOrder st oid pid req =
        (Except.error (ApiError.notFoundError ("No order with id: " ++ oid)), st)) ∧
    (∀ ord, findOrderById st oid = some ord → ord.ownerUserId ≠ req.userId →
      req.elevated = false →
      (∃ m, getSingleOrder st oid req = Except.error (ApiError.authorizationError m) ∧
        errorStatus (ApiError.authorizationError m) = 403) ∧
      (∃ m, (updateOrder st oid pid req).1 = Except.error (ApiError.authorizationError m) ∧
        errorStatus (ApiError.authorizationError m) = 403)) ∧
    (∀ ord, findOrderById st oid = some ord → ord.ownerUserId = req.userId →
      getSingleOrder st oid req = Except.ok (OrdersResponse.okOrder ord) ∧
      ∃ ord2 st2, updateOrder st oid pid req =
        (Except.ok (OrdersResponse.okOrder ord2), st2)) := by
  refine ⟨?_, ?_, ?_⟩
  · intro hnone
    exact ⟨by simp [getSingleOrder, hnone], by simp [updateOrder, hnone]⟩
  · intro ord hsome hown helev
    have hne2 : (req.userId == ord.ownerUserId) = false := by
      rw [beq_eq_false_iff_ne]
      exact fun h => hown h.symm
    have hperm : checkPermissions req ord.ownerUserId =
        Except.error (ApiError.authorizationError "not authorized to access this resource") := by
      simp [checkPermissions, helev, hne2]
    refine ⟨⟨"not authorized to access this resource", ?_, rfl⟩,
      ⟨"not authorized to access this resource", ?_, rfl⟩⟩
    · simp [getSingleOrder, hsome, hperm]
    · simp [updateOrder, hsome, hperm]
  · intro ord hsome hown
    have hperm : checkPermissions req ord.ownerUserId = Except.ok () := by
      simp [checkPermissions, hown]
    refine ⟨by simp [getSingleOrder, hsome, hperm], ?_⟩
    exact ⟨{ ord with paymentIntentId := pid, status := OrderStatus.paid },
      { st with store := st.store.map (fun o => if o.id == oid then
          { ord with paymentIntentId := pid, status := OrderStatus.paid } else o) },
      by simp [updateOrder, hsome, hperm]⟩

/-- Witness for C5: in the two-order store, an unknown id yields the
NotFoundError naming it, another user's order yields the 403
AuthorizationError, and the requester's own order succeeds. -/
theorem order_access_control_witness :
    getSingleOrder exState "O9" exRequester =
      Except.error (ApiError.notFoundError ("No order with id: " ++ "O9")) ∧
    (∃ m, getSingleOrder exState "O2" exRequester =
        Except.error (ApiError.authorizationError m) ∧
      errorStatus (ApiError.authorizationError m) = 403) ∧
    getSingleOrder exState "O1" exRequester = Except.ok (OrdersResponse.okOrder exOrder) :=
  ⟨((order_access_control exState "O9" exRequester (some "pi")).1 (by decide)).1,
   ((order_access_control exState "O2" exRequester (some "pi")).2.1 exOrderOther (by decide)
     (by decide) rfl).1,
   ((order_access_control exState "O1" exRequester (some "pi")).2.2 exOrder (by decide) rfl).1⟩

/-- C6: updateOrder modifies only the paymentIntentId and status fields of
the fetched order (status becomes paid), persists the mutation in place by
replacing the record with the same id (store length and next store
identity unchanged, so no new record is inserted), leaves items, subtotal,
tax, shippingFee, total, ownerUserId, id and paymentClientSecret
unchanged, and responds 200 with the updated order. -/
theorem updateOrder_frame (st : OrdersState) (oid : String) (pid : Option String)
    (req : Identity) (ord : Order)
    (hfind : findOrderById st oid = some ord)
    (hperm : checkPermissions req ord.ownerUserId = Except.ok ()) :
    ∃ ord2, updateOrder st oid pid req =
        (Except.ok (OrdersResponse.okOrder ord2),
          { st with store := st.store.map (fun o => if o.id == oid then ord2 else o) }) ∧
      ord2.paymentIntentId = pid ∧ ord2.status = OrderStatus.paid ∧
      ord2.items = ord.items ∧ ord2.subtotal = ord.subtotal ∧ ord2.tax = ord.tax ∧
      ord2.shippingFee = ord.shippingFee ∧ ord2.total = ord.total ∧
      ord2.ownerUserId = ord.ownerUserId ∧ ord2.id = ord.id ∧
      ord2.paymentClientSecret = ord.paymentClientSecret ∧
      ((updateOrder st oid pid req).2).store.length = st.store.length ∧
      ((updateOrder st oid pid req).2).nextId = st.nextId ∧
      responseStatus (OrdersResponse.okOrder ord2) = 200 := by
  refine ⟨{ ord with paymentIntentId := pid, status := OrderStatus.paid }, ?_, rfl, rfl, rfl,
    rfl, rfl, rfl, rfl, rfl, rfl, rfl, ?_, ?_, rfl⟩
  · simp [updateOrder, hfind, hperm]
  · simp [updateOrder, hfind, hperm]
  · simp [updateOrder, hfind, hperm]

/-- Witness for C6: updating the requester's own order marks exactly the
payment reference and the paid status, preserves every other field, and
keeps the store the same size. -/
theorem updateOrder_frame_witness :
    ∃ ord2, updateOrder exState "O1" (some "pi9") exRequester =
        (Except.ok (OrdersResponse.okOrder ord2),
          { exState with
            store := exState.store.map (fun o => if o.id == "O1" then ord2 else o) }) ∧
      ord2.paymentIntentId = some "pi9" ∧ ord2.status = OrderStatus.paid ∧
      ord2.items = exOrder.items ∧ ord2.subtotal = exOrder.subtotal ∧
      ord2.tax = exOrder.tax ∧ ord2.shippingFee = exOrder.shippingFee ∧
      ord2.total = exOrder.total ∧ ord2.ownerUserId = exOrder.ownerUserId ∧
      ord2.id = exOrder.id ∧ ord2.paymentClientSecret = exOrder.paymentClientSecret ∧
      ((updateOrder exState "O1" (some "pi9") exRequester).2).store.length =
        exState.store.length ∧
      ((updateOrder exState "O1" (some "pi9") exRequester).2).nextId = exState.nextId ∧
      responseStatus (OrdersResponse.okOrder ord2) = 200 :=
  updateOrder_frame exState "O1" (some "pi9") exRequester exOrder (by decide) rfl

/-- Searching a store in which the record with the given id has been
replaced by `ord1` (itself carrying that id) finds `ord1` exactly when the
original search found a record. -/
theorem find?_replace (l : List Order) (oid : String) (ord1 : Order) (h1 : ord1.id = oid) :
    (l.map (fun o => if o.id == oid then ord1 else o)).find? (fun o => o.id == oid) =
      (l.find? (fun o => o.id == oid)).map (fun _ => ord1) := by
  induction l with
  | nil => rfl
  | cons o l ih =>
    rw [List.map_cons]
    by_cases h : o.id = oid
    · have hb : (o.id == oid) = true := beq_iff_eq.mpr h
      have hb1 : (ord1.id == oid) = true := beq_iff_eq.mpr h1
      rw [if_pos hb]
      simp only [List.find?]
      rw [hb, hb1]
      rfl
    · have hb : (o.id == oid) = false := by simp [h]
      rw [if_neg (by simp [hb])]
      simp only [List.find?]
      rw [hb]
      exact ih

/-- Replacing the record with the given id by `ord1` a second time changes
nothing: the replacement is idempotent on the store. -/
theorem map_replace_idem (l : List Order) (oid : String) (ord1 : Order) :
    ((l.map (fun o => if o.id == oid then ord1 else o)).map
        (fun o => if o.id == oid then ord1 else o)) =
      l.map (fun o => if o.id == oid then ord1 else o) := by
  simp only [List.map_map]
  apply List.map_congr_left
  intro a _
  by_cases h : a.id = oid
  · simp [h]
  · simp [h]

/-- C7: updateOrder is idempotent — for an existing order owned by the
requester, a second call with the same payment reference returns the same
paid order and the very same state — and no specified operation moves an
order out of the paid status: every record of the store after an
updateOrder is either an untouched record of the previous store or is
paid, and every record of the store after a createOrder is either an
untouched record of the previous store or is a fresh pending one (the read
operations are pure and return no new store). -/
theorem updateOrder_idempotent (st : OrdersState) (oid : String) (pid : Option String)
    (req : Identity) (ord : Order)
    (hfind : findOrderById st oid = some ord)
    (hown : ord.ownerUserId = req.userId) :
    (∃ ord1 st1, updateOrder st oid pid req = (Except.ok (OrdersResponse.okOrder ord1), st1) ∧
      ord1.status = OrderStatus.paid ∧
      updateOrder st1 oid pid req = (Except.ok (OrdersResponse.okOrder ord1), st1)) ∧
    (∀ (st0 : OrdersState) (oid0 : String) (pid0 : Option String) (req0 : Identity),
      ∀ o ∈ ((updateOrder st0 oid0 pid0 req0).2).store,
        o ∈ st0.store ∨ o.status = OrderStatus.paid) ∧
    (∀ (catalog : List Product) (payment : Int → String → Option PaymentIntent)
        (st0 : OrdersState) (cart : Option (List CartItem)) (tax fee : Option Int)
        (req0 : Identity),
      ∀ o ∈ ((createOrder catalog payment st0 cart tax fee req0).2).store,
        o ∈ st0.store ∨ o.status = OrderStatus.pending) := by
  refine ⟨?_, ?_, ?_⟩
  · have hperm : checkPermissions req ord.ownerUserId = Except.ok () := by
      simp [checkPermissions, hown]
    have hid : ord.id = oid := by
      have hp := List.find?_some hfind
      simpa using hp
    refine ⟨{ ord with paymentIntentId := pid, status := OrderStatus.paid },
      { st with store := st.store.map (fun o => if o.id == oid then
          { ord with paymentIntentId := pid, status := OrderStatus.paid } else o) },
      ?_, rfl, ?_⟩
    · simp [updateOrder, hfind, hperm]
    · have hfind2 : (st.store.map (fun o => if o.id == oid then
          { ord with paymentIntentId := pid, status := OrderStatus.paid } else o)).find?
          (fun o => o.id == oid) =
          some { ord with paymentIntentId := pid, status := OrderStatus.paid } := by
        rw [find?_replace st.store oid
          { ord with paymentIntentId := pid, status := OrderStatus.paid } hid]
        unfold findOrderById at hfind
        rw [hfind]
        rfl
      have hmap := map_replace_idem st.store oid
        { ord with paymentIntentId := pid, status := OrderStatus.paid }
      simp only [updateOrder, findOrderById, hfind2, hperm]
      rw [hmap]
  · intro st0 oid0 pid0 req0 o ho
    cases hf : findOrderById st0 oid0 with
    | none => exact Or.inl (by simpa [updateOrder, hf] using ho)
    | some ordX =>
      rcases checkPermissions_cases req0 ordX.ownerUserId with hp | hp
      · simp [updateOrder, hf, hp] at ho
        obtain ⟨a, ha, hao⟩ := ho
        by_cases hb : a.id = oid0
        · rw [if_pos hb] at hao
          right
          rw [← hao]
        · rw [if_neg hb] at hao
          exact Or.inl (hao ▸ ha)
      · exact Or.inl (by simpa [updateOrder, hf, hp] using ho)
  · intro catalog payment st0 cart tax fee req0 o ho
    cases cart with
    | none => exact Or.inl (by simpa [createOrder] using ho)
    | some l =>
      cases l with
      | nil => exact Or.inl (by simpa [createOrder] using ho)
      | cons c cs =>
        cases tax with
        | none => exact Or.inl (by simpa [createOrder] using ho)
        | some t =>
          cases fee with
          | none => exact Or.inl (by simpa [createOrder] using ho)
          | some f =>
            cases hpc : priceCart catalog (c :: cs) with
            | error e => exact Or.inl (by simpa [createOrder, hpc] using ho)
            | ok v =>
              obtain ⟨items, sub⟩ := v
              cases hpay : payment (sub + t + f) fixedCurrency with
              | none => exact Or.inl (by simpa [createOrder, hpc, hpay] using ho)
              | some intent =>
                simp [createOrder, hpc, hpay] at ho
                rcases ho with ho | ho
                · exact Or.inl ho
                · right
                  rw [ho]

/-- Witness for C7: updating the requester's own order twice with the same
payment reference gives the same paid order and the same state both
times. -/
theorem updateOrder_idempotent_witness :
    ∃ ord1 st1, updateOrder exState "O1" (some "pi") exRequester =
        (Except.ok (OrdersResponse.okOrder ord1), st1) ∧
      ord1.status = OrderStatus.paid ∧
      updateOrder st1 "O1" (some "pi") exRequester =
        (Except.ok (OrdersResponse.okOrder ord1), st1) :=
  (updateOrder_idempotent exState "O1" (some "pi") exRequester exOrder (by decide) rfl).1

/-- C8: getAllOrders returns every stored order with no filtering by
owner, as a 200 response carrying the orders and a count;
getCurrentUserOrders returns exactly the stored orders whose ownerUserId
equals the requester's id, as a 200 response carrying the orders and a
count. -/
theorem getOrders_contract (st : OrdersState) (req : Identity) :
    getAllOrders st = OrdersResponse.okOrders st.store st.store.length ∧
    responseStatus (getAllOrders st) = 200 ∧
    (∃ mine, getCurrentUserOrders st req = OrdersResponse.okOrders mine mine.length ∧
      ∀ o, o ∈ mine ↔ o ∈ st.store ∧ o.ownerUserId = req.userId) ∧
    responseStatus (getCurrentUserOrders st req) = 200 := by
  refine ⟨rfl, rfl, ⟨_, rfl, ?_⟩, rfl⟩
  intro o
  simp [List.mem_filter]

/-- Witness for C8 on the two-order store: the collection read returns
both orders, while the current-user read for U1 returns exactly U1's
order. -/
theorem getOrders_contract_witness :
    getAllOrders exState = OrdersResponse.okOrders exState.store exState.store.length ∧
    ∃ mine, getCurrentUserOrders exState exRequester = OrdersResponse.okOrders mine mine.length ∧
      ∀ o, o ∈ mine ↔ o ∈ exState.store ∧ o.ownerUserId = exRequester.userId :=
  ⟨(getOrders_contract exState exRequester).1,
   (getOrders_contract exState exRequester).2.2.1⟩

/-- C9: in every getAllOrders and getCurrentUserOrders response, the count
field equals the length of the returned orders list. -/
theorem orders_count_matches (st : OrdersState) (req : Identity) :
    respCount (getAllOrders st) = (respOrders (getAllOrders st)).length ∧
    respCount (getCurrentUserOrders st req) =
      (respOrders (getCurrentUserOrders st req)).length :=
  ⟨rfl, rfl⟩

/-- C10: updateOrder performs no verification of the supplied payment
reference: it can never fail with a ValidationError, and for every
paymentIntentId value — including an absent one — if the order is found
and the ownership check passes, the order is marked paid, stamped with
exactly that payment reference, and saved. -/
theorem updateOrder_no_payment_verification (st : OrdersState) (oid : String)
    (req : Identity) :
    (∀ (pid : Option String) (m : String),
      (updateOrder st oid pid req).1 ≠ Except.error (ApiError.validationError m)) ∧
    (∀ (pid : Option String) (ord : Order), findOrderById st oid = some ord →
      checkPermissions req ord.ownerUserId = Except.ok () →
      updateOrder st oid pid req =
        (Except.ok (OrdersResponse.okOrder
          { ord with paymentIntentId := pid, status := OrderStatus.paid }),
         { st with store := st.store.map (fun o => if o.id == oid then
             { ord with paymentIntentId := pid, status := OrderStatus.paid } else o) })) := by
  constructor
  · intro pid m
    cases hf : findOrderById st oid with
    | none => simp [updateOrder, hf]
    | some ordX =>
      rcases checkPermissions_cases req ordX.ownerUserId with hp | hp
      · simp [updateOrder, hf, hp]
      · simp [updateOrder, hf, hp]
  · intro pid ord hf hp
    simp [updateOrder, hf, hp]

/-- Witness for C10: updating the requester's own order with an absent
payment reference succeeds, marks it paid and stamps the absent
reference; no ValidationError arises. -/
theorem updateOrder_no_payment_verification_witness :
    (updateOrder exState "O1" none exRequester).1 ≠
      Except.error (ApiError.validationError "please provide tax and shipping fee") ∧
    updateOrder exState "O1" none exRequester =
      (Except.ok (OrdersResponse.okOrder
        { exOrder with paymentIntentId := none, status := OrderStatus.paid }),
       { exState with store := exState.store.map (fun o => if o.id == "O1" then
           { exOrder with paymentIntentId := none, status := OrderStatus.paid } else o) }) :=
  ⟨(updateOrder_no_payment_verification exState "O1" exRequester).1 none
     "please provide tax and shipping fee",
   (updateOrder_no_payment_verification exState "O1" exRequester).2 none exOrder
     (by decide) rfl⟩
